import Mathlib

/-
Shallow embedding of the warm-transfer demo repository.

The repository has two grant-issuing Next.js route handlers, a demo page
driving the transfer flow against a backend service, and UI components for
transfer progress display and participant classification.  The backend
orchestration service itself (the Transfer State Machine of the spec) is not
part of the sources; where a claim depends on it, the relevant operation is
modelled from the spec and marked as such in its doc comment.
-/

namespace WarmTransfer

/-- falsy models the JavaScript truthiness test on a string-or-undefined
value: undefined and the empty string are falsy, every other string is
truthy. -/
def falsy : Option String → Bool
  | none => true
  | some s => s == ""

/-- VideoGrant is the grant object passed to AccessToken.addGrant: one room
name together with the permission flags used by the two route handlers. -/
structure VideoGrant where
  room : String
  roomJoin : Bool
  canPublish : Bool
  canSubscribe : Bool
  canPublishData : Bool
  canUpdateOwnMetadata : Bool
deriving DecidableEq, Repr, BEq

/-- AccessToken models the token minted by the livekit server sdk: a subject
identity, an optional ttl, and the list of grants added by addGrant calls. -/
structure AccessToken where
  identity : String
  ttl : Option String
  grants : List VideoGrant
deriving DecidableEq, Repr, BEq

/-- grantPairs lists the (identity, room) pairs a minted token authorizes:
one pair per grant carried by the token. -/
def grantPairs (t : AccessToken) : List (String × String) :=
  t.grants.map (fun g => (t.identity, g.room))

namespace TokenRoute

/-- Env holds the three environment variables read by the token POST
handler. -/
structure Env where
  apiKey : Option String
  apiSecret : Option String
  wsUrl : Option String
deriving DecidableEq, Repr

/-- Resp is the observable response of the token POST handler: either a json
body carrying the minted token, or a json error with an http status. -/
inductive Resp where
  | ok (token : AccessToken)
  | jsonError (status : Nat) (message : String)
deriving DecidableEq, Repr

/-- grantFor is the grant object built by the token POST handler for the
requested room: the single addGrant call with fixed permissions. -/
def grantFor (room : String) : VideoGrant :=
  { room := room, roomJoin := true, canPublish := true,
    canSubscribe := true, canPublishData := true,
    canUpdateOwnMetadata := false }

/-- POST embeds the token route handler: reject falsy room or identity with
a 400, reject missing credentials with a 500, otherwise mint a token with a
24 hour ttl and exactly one grant for the requested room. -/
def POST (env : Env) (room identity : Option String) : Resp :=
  if falsy room || falsy identity then
    .jsonError 400 "Room and identity are required"
  else if falsy env.apiKey || falsy env.apiSecret || falsy env.wsUrl then
    .jsonError 500 "LiveKit credentials not configured"
  else
    .ok { identity := identity.getD "", ttl := some "24h",
          grants := [grantFor (room.getD "")] }

end TokenRoute

namespace RoomRoute

/-- Env holds the environment variables read at module scope by the room
route: the livekit host, api key and api secret. -/
structure Env where
  host : Option String
  apiKey : Option String
  apiSecret : Option String
deriving DecidableEq, Repr

/-- Err enumerates the failure causes inside the try block of the room GET
handler: the explicit userid throw, the explicit missing-host throw, a
rejected createRoom transport call, and a signing failure while minting. -/
inductive Err where
  | noUserId
  | missingEnv
  | transport
  | signing
deriving DecidableEq, Repr

/-- Resp is the observable response of the room GET handler: a json body
with the fresh room name and token, or no response at all, which is what
the handler returns when its catch block swallows an error. -/
inductive Resp where
  | json (status : Nat) (roomName : String) (token : AccessToken)
  | noResponse
deriving DecidableEq, Repr

/-- grantFor is the grant object built by the room GET handler for the
freshly generated room name. -/
def grantFor (roomName : String) : VideoGrant :=
  { room := roomName, roomJoin := true, canPublish := true,
    canPublishData := true, canSubscribe := true,
    canUpdateOwnMetadata := true }

/-- createaccesstoken embeds the helper of the same name in the room route.
Its failure condition is modelled from the spec: the credential signing
backend produces a verifiable token given signing key material (section 6),
so minting without an api key or api secret fails rather than producing a
token. -/
def createaccesstoken (apiKey apiSecret : Option String) (identity : String)
    (grant : VideoGrant) : Except Err AccessToken :=
  if falsy apiKey || falsy apiSecret then .error .signing
  else .ok { identity := identity, ttl := none, grants := [grant] }

/-- GETtry embeds the try block of the room GET handler: validate the
userid, validate the host variable (the api key and secret are not checked
here), call the transport to create the room, then mint the token.  The
transport outcome is a parameter; the handler performs exactly one create
attempt. -/
def GETtry (env : Env) (userId : Option String) (roomName : String)
    (transportOk : Bool) : Except Err (String × AccessToken) :=
  if falsy userId then .error .noUserId
  else if falsy env.host then .error .missingEnv
  else if transportOk = false then .error .transport
  else
    match createaccesstoken env.apiKey env.apiSecret (userId.getD "")
        (grantFor roomName) with
    | .error e => .error e
    | .ok tok => .ok (roomName, tok)

/-- GET embeds the whole room GET handler: the try block wrapped in a catch
that only logs, so every internal failure yields no response. -/
def GET (env : Env) (userId : Option String) (roomName : String)
    (transportOk : Bool) : Resp :=
  match GETtry env userId roomName transportOk with
  | .ok (rn, token) => .json 200 rn token
  | .error _ => .noResponse

end RoomRoute

namespace UIStatus

/-- Stage is the displayed transfer stage of the TransferStatus component. -/
inductive Stage where
  | requested
  | briefing
  | connecting
  | completed
deriving DecidableEq, Repr

/-- transferStageAt embeds the nested setTimeout chain of the TransferStatus
component: the displayed stage as a function of milliseconds elapsed since
the transfer was requested, with no other input.  The chain advances to
briefing after 2000 ms, to connecting 5000 ms later, and to completed
3000 ms after that. -/
def transferStageAt (ms : Nat) : Stage :=
  if ms < 2000 then .requested
  else if ms < 7000 then .briefing
  else if ms < 10000 then .connecting
  else .completed

/-- stageIdx orders the displayed stages by progress. -/
def stageIdx : Stage → Nat
  | .requested => 0
  | .briefing => 1
  | .connecting => 2
  | .completed => 3

/-- cancelButtonVisible embeds the guard on the cancel button of the
TransferStatus component: it is rendered only in the requested stage. -/
def cancelButtonVisible : Stage → Bool
  | .requested => true
  | _ => false

end UIStatus

namespace Orchestrator

/-- TransferState enumerates the transfer lifecycle states of the spec
state table (section 4.4). -/
inductive TransferState where
  | Requested
  | Briefing
  | SummaryReady
  | AwaitingAgentB
  | HandingOff
  | Completed
  | Cancelled
  | Failed
deriving DecidableEq, Repr

/-- OrchErr enumerates the orchestrator error taxonomy of the spec
(section 7). -/
inductive OrchErr where
  | invalidState
  | noAgentAvailable
  | transportFailure
  | summarizationFailure
  | configuration
deriving DecidableEq, Repr

/-- allowedNext is the next-state relation of the spec state table
(section 4.4): true exactly when the table lists the second state among the
next states of the first. -/
def allowedNext : TransferState → TransferState → Bool
  | .Requested, .Briefing => true
  | .Requested, .Cancelled => true
  | .Briefing, .SummaryReady => true
  | .Briefing, .Failed => true
  | .SummaryReady, .AwaitingAgentB => true
  | .SummaryReady, .Failed => true
  | .AwaitingAgentB, .HandingOff => true
  | .AwaitingAgentB, .Cancelled => true
  | .AwaitingAgentB, .Failed => true
  | .HandingOff, .Completed => true
  | .HandingOff, .Failed => true
  | _, _ => false

/-- chainOk checks that a run of transfer states follows the state table
step by step, with no transition skipped. -/
def chainOk : List TransferState → Bool
  | [] => true
  | [_] => true
  | a :: b :: rest => allowedNext a b && chainOk (b :: rest)

/-- OrchState is the per-transfer system state the cancel operation acts
on: the transfer lifecycle state, whether the briefing room is live, and
whether the transfer is still attached to its call. -/
structure OrchState where
  tstate : TransferState
  briefingRoomLive : Bool
  transferAttached : Bool
deriving DecidableEq, Repr

/-- Modelled from the spec: cancelTransfer of the Transfer State Machine is
not present under src (only the UI cancel guard is).  Per sections 4.4 and
5 it succeeds only from Requested or AwaitingAgentB, destroying the
briefing room and detaching the transfer, and outside those states it fails
with InvalidStateError, surfaced immediately with no retry and no state
change. -/
def cancelTransfer (s : OrchState) : Except OrchErr OrchState :=
  match s.tstate with
  | .Requested =>
      .ok { tstate := .Cancelled, briefingRoomLive := false,
            transferAttached := false }
  | .AwaitingAgentB =>
      .ok { tstate := .Cancelled, briefingRoomLive := false,
            transferAttached := false }
  | _ => .error .invalidState

/-- cancelResultState is the system state after a cancel request: the new
state on success, the old state untouched when the request was rejected
(the error is thrown before any mutation). -/
def cancelResultState (s : OrchState) : OrchState :=
  match cancelTransfer s with
  | .ok t => t
  | .error _ => s

/-- cancelSucceeds reports whether a cancel request goes through. -/
def cancelSucceeds (s : OrchState) : Bool :=
  match cancelTransfer s with
  | .ok _ => true
  | .error _ => false

end Orchestrator

namespace Classification

/-- leadMatch checks that the first character list is a leading segment of
the second. -/
def leadMatch : List Char → List Char → Bool
  | [], _ => true
  | _ :: _, [] => false
  | n :: ns, h :: hs => n == h && leadMatch ns hs

/-- containsSub checks that the needle occurs contiguously somewhere in the
haystack, matching the JavaScript String.includes test. -/
def containsSub (hay needle : List Char) : Bool :=
  match hay with
  | [] => needle.isEmpty
  | _ :: t => leadMatch needle hay || containsSub t needle

/-- isAgentIdentity embeds the participant classification used by both the
call interface and the participant monitor: an identity is treated as an
agent exactly when it contains the substring agent. -/
def isAgentIdentity (ident : String) : Bool :=
  containsSub ident.toList "agent".toList

/-- agentsOf embeds the agents filter over the participant list. -/
def agentsOf (ps : List String) : List String :=
  ps.filter isAgentIdentity

/-- customersOf embeds the customers filter over the participant list. -/
def customersOf (ps : List String) : List String :=
  ps.filter (fun p => !(isAgentIdentity p))

end Classification

namespace Flow

open Orchestrator

/-- Who names the three participants of the demo flow: the caller, the
primary agent joined to the original room, and the transfer agent. -/
inductive Who where
  | caller
  | agentA
  | agentB
deriving DecidableEq, Repr, BEq

/-- Ev is an externally visible action of the combined frontend plus
backend flow: room lifecycle, grant issuance, client connect and
disconnect, conversation log read, summary storage, and the update of the
call agent set. -/
inductive Ev where
  | createRoom (room : String)
  | destroyRoom (room : String)
  | issueGrant (w : Who) (room : String)
  | connect (w : Who) (room : String)
  | disconnect (w : Who) (room : String)
  | readLog
  | storeSummary
  | updateAgentSet (agents : List Who)
deriving DecidableEq, Repr, BEq

/-- origRoom is the original room of the demo call, R1 of the spec
scenarios. -/
def origRoom : String := "R1"

/-- briefingRoom is the briefing room created for the transfer, R2 of the
spec scenarios. -/
def briefingRoom : String := "R2"

/-- setupTrace lists the actions of initiateCall followed by connectAgentA
in the demo page: the original room is created, the caller and Agent A are
each granted and connected, and the call agent set holds Agent A. -/
def setupTrace : List Ev :=
  [ .createRoom origRoom,
    .issueGrant .caller origRoom,
    .connect .caller origRoom,
    .issueGrant .agentA origRoom,
    .connect .agentA origRoom,
    .updateAgentSet [.agentA] ]

/-- initiateTransferTrace lists the actions of the initiate-transfer step.
Modelled from the spec for the backend part, which is not under src: per
the state table the briefing room is created and Agent A granted on
entering Briefing, the conversation log is read and the summary stored on
reaching SummaryReady, and only then is the briefing grant for Agent B
issued.  The frontend part is from the demo page initiateTransfer: both
agents then connect to the briefing room, and the page drops its reference
to the Agent A original room connection without disconnecting it. -/
def initiateTransferTrace : List Ev :=
  [ .createRoom briefingRoom,
    .issueGrant .agentA briefingRoom,
    .readLog,
    .storeSummary,
    .issueGrant .agentB briefingRoom,
    .connect .agentA briefingRoom,
    .connect .agentB briefingRoom ]

/-- initiateRun is the sequence of transfer states traversed while the
initiate-transfer step runs, per the spec state table. -/
def initiateRun : List TransferState :=
  [ .Requested, .Briefing, .SummaryReady, .AwaitingAgentB ]

/-- completeTrace lists the actions of the complete-transfer step.  The
client ordering is from leaveTransferAndComplete in the demo page: Agent B
leaves the briefing room and joins the original room with the token from
the response, and only then does the page disconnect its Agent A
connection.  The backend part is modelled from the spec: the endpoint
issues Agent B a grant for the original room and signals Agent A to leave;
since Completed is entered only once Agent B confirmed joined and Agent A
confirmed removed, the instructed removal of Agent A from the original room
takes effect after Agent B has joined it, after which the briefing room is
destroyed and the call agent set replaces Agent A with Agent B. -/
def completeTrace : List Ev :=
  [ .issueGrant .agentB origRoom,
    .disconnect .agentB briefingRoom,
    .connect .agentB origRoom,
    .disconnect .agentA briefingRoom,
    .disconnect .agentA origRoom,
    .destroyRoom briefingRoom,
    .updateAgentSet [.agentB] ]

/-- fullTrace is the whole demo flow from call start to completed
transfer. -/
def fullTrace : List Ev :=
  setupTrace ++ initiateTransferTrace ++ completeTrace

/-- step applies one event to the set of live media connections, as pairs
of participant and room. -/
def step (conns : List (Who × String)) : Ev → List (Who × String)
  | .connect w r => (w, r) :: conns
  | .disconnect w r => conns.filter (fun c => !(c == (w, r)))
  | _ => conns

/-- runConns folds a trace over the connection set. -/
def runConns (start : List (Who × String)) (tr : List Ev) :
    List (Who × String) :=
  tr.foldl step start

/-- agentsIn lists the agents currently connected to a room. -/
def agentsIn (conns : List (Who × String)) (room : String) : List Who :=
  (conns.filter (fun c => c.2 == room && !(c.1 == Who.caller))).map
    (fun c => c.1)

/-- agentSetAfter is the call agent set after a trace: the list carried by
the last agent set update, starting from the empty set. -/
def agentSetAfter (tr : List Ev) : List Who :=
  tr.foldl
    (fun s e =>
      match e with
      | .updateAgentSet l => l
      | _ => s)
    []

/-- idxOf is the index of the first occurrence of an event in a trace. -/
def idxOf (e : Ev) (tr : List Ev) : Nat :=
  tr.findIdx (fun x => x == e)

/-- handoffNeverEmpty checks that after every prefix of the completion
step, at least one agent is connected to the original room, starting from
the connection set reached by setup and transfer initiation. -/
def handoffNeverEmpty : Bool :=
  (List.range (completeTrace.length + 1)).all
    (fun k =>
      !(agentsIn
          (runConns (runConns [] (setupTrace ++ initiateTransferTrace))
            (completeTrace.take k))
          origRoom).isEmpty)

/-- PageState is the React state of the demo page that the completion
handler touches: the original room id, whether transfer info is present,
the rooms the two agent connection refs point at, and the status string. -/
structure PageState where
  origRoomId : String
  transferActive : Bool
  agentARoomRef : Option String
  agentBRoomRef : Option String
  status : String
deriving DecidableEq, Repr

/-- leaveTransferAndComplete embeds the page handler of the same name: it
returns early unless an original room id and transfer info are present,
and otherwise moves the Agent B ref to the original room, clears the
Agent A ref, and sets the status to transfer_completed. -/
def leaveTransferAndComplete (s : PageState) : PageState :=
  if s.origRoomId == "" || !s.transferActive then s
  else
    { s with agentBRoomRef := some s.origRoomId,
             agentARoomRef := none,
             status := "transfer_completed" }

/-- pageBeforeComplete is the page state reached after transfer initiation:
both agent refs point at the briefing room. -/
def pageBeforeComplete : PageState :=
  { origRoomId := origRoom, transferActive := true,
    agentARoomRef := some briefingRoom,
    agentBRoomRef := some briefingRoom,
    status := "transfer_room_connected" }

end Flow

/-- C1: during completion of a transfer, Agent B is issued a grant for the
original room and is connected to the original room strictly before Agent A
is disconnected from it; after every prefix of the completion step the
original room holds at least one agent; afterwards the call agent set
contains Agent B and not Agent A, and the page handler ends with the
Agent A ref cleared, the Agent B ref on the original room, and status
transfer_completed. -/
theorem handoff_order_and_room_occupancy :
    Flow.idxOf (.issueGrant .agentB Flow.origRoom) Flow.completeTrace <
      Flow.idxOf (.disconnect .agentA Flow.origRoom) Flow.completeTrace ∧
    Flow.idxOf (.connect .agentB Flow.origRoom) Flow.completeTrace <
      Flow.idxOf (.disconnect .agentA Flow.origRoom) Flow.completeTrace ∧
    Flow.handoffNeverEmpty = true ∧
    (Flow.agentSetAfter Flow.fullTrace).contains Flow.Who.agentB = true ∧
    (Flow.agentSetAfter Flow.fullTrace).contains Flow.Who.agentA = false ∧
    (Flow.leaveTransferAndComplete Flow.pageBeforeComplete).agentARoomRef
      = none ∧
    (Flow.leaveTransferAndComplete Flow.pageBeforeComplete).agentBRoomRef
      = some Flow.origRoom ∧
    (Flow.leaveTransferAndComplete Flow.pageBeforeComplete).status
      = "transfer_completed" := by
  decide

/-- C5: in the initiate-transfer step the summary is stored strictly before
the briefing-room grant for Agent B is issued, the traversed states follow
the state table step by step, and skipping transitions such as Requested to
SummaryReady or Briefing to AwaitingAgentB is not allowed by the table. -/
theorem summary_before_agentB_grant :
    Flow.idxOf Flow.Ev.storeSummary Flow.initiateTransferTrace <
      Flow.idxOf (.issueGrant .agentB Flow.briefingRoom)
        Flow.initiateTransferTrace ∧
    Orchestrator.chainOk Flow.initiateRun = true ∧
    Orchestrator.allowedNext .Requested .SummaryReady = false ∧
    Orchestrator.allowedNext .Briefing .AwaitingAgentB = false ∧
    Orchestrator.allowedNext .Requested .AwaitingAgentB = false := by
  decide

/-- C2 counterexample: the displayed transfer stage of the TransferStatus
component is a function of elapsed milliseconds alone, and it changes value
as time passes with no completion signal anywhere in its inputs: at 0 ms
the stage is requested, at 2000 ms it is briefing, at 7000 ms connecting,
at 10000 ms completed. -/
theorem ui_stage_advances_by_timer_cex :
    UIStatus.transferStageAt 0 = .requested ∧
    UIStatus.transferStageAt 2000 = .briefing ∧
    UIStatus.transferStageAt 7000 = .connecting ∧
    UIStatus.transferStageAt 10000 = .completed ∧
    UIStatus.Stage.requested ≠ UIStatus.Stage.briefing := by
  decide

/-- C2: amended. The TransferStatus component advances its displayed stage
purely by internal fixed-delay timers: the stage is monotone in elapsed
time, is requested below 2000 ms, briefing from 2000 ms, connecting from
7000 ms, and completed from 10000 ms on, regardless of any external
signal. -/
theorem ui_stage_timer_schedule :
    (∀ m1 m2 : Nat, m1 ≤ m2 →
      UIStatus.stageIdx (UIStatus.transferStageAt m1) ≤
        UIStatus.stageIdx (UIStatus.transferStageAt m2)) ∧
    (∀ ms : Nat, ms < 2000 → UIStatus.transferStageAt ms = .requested) ∧
    (∀ ms : Nat, 2000 ≤ ms → ms < 7000 →
      UIStatus.transferStageAt ms = .briefing) ∧
    (∀ ms : Nat, 7000 ≤ ms → ms < 10000 →
      UIStatus.transferStageAt ms = .connecting) ∧
    (∀ ms : Nat, 10000 ≤ ms → UIStatus.transferStageAt ms = .completed) := by
  refine ⟨?_, ?_, ?_, ?_, ?_⟩
  · intro m1 m2 h
    unfold UIStatus.transferStageAt
    split_ifs <;> first | decide | omega
  · intro ms h
    unfold UIStatus.transferStageAt
    split_ifs <;> first | rfl | omega
  · intro ms h1 h2
    unfold UIStatus.transferStageAt
    split_ifs <;> first | rfl | omega
  · intro ms h1 h2
    unfold UIStatus.transferStageAt
    split_ifs <;> first | rfl | omega
  · intro ms h
    unfold UIStatus.transferStageAt
    split_ifs <;> first | rfl | omega

/-- Witness for the timer schedule theorem at concrete instants. -/
theorem ui_stage_timer_schedule_witness :
    UIStatus.stageIdx (UIStatus.transferStageAt 100) ≤
      UIStatus.stageIdx (UIStatus.transferStageAt 8000) ∧
    UIStatus.transferStageAt 100 = .requested ∧
    UIStatus.transferStageAt 2500 = .briefing ∧
    UIStatus.transferStageAt 8000 = .connecting ∧
    UIStatus.transferStageAt 12000 = .completed :=
  ⟨ui_stage_timer_schedule.1 100 8000 (by decide),
   ui_stage_timer_schedule.2.1 100 (by decide),
   ui_stage_timer_schedule.2.2.1 2500 (by decide) (by decide),
   ui_stage_timer_schedule.2.2.2.1 8000 (by decide) (by decide),
   ui_stage_timer_schedule.2.2.2.2 12000 (by decide)⟩

/-- C8 counterexample: a customer whose identity merely contains the marker
word agent is classified and displayed as a support agent by the substring
filters of the call interface and the participant monitor. -/
theorem substring_classification_cex :
    Classification.isAgentIdentity "travel-agent-fan" = true ∧
    Classification.agentsOf ["travel-agent-fan"] = ["travel-agent-fan"] ∧
    Classification.customersOf ["travel-agent-fan"] = [] := by
  decide

/-- C8: amended. Participant classification is inferred from the identity
string by substring matching, not from a tagged role field: a participant
is listed among the agents exactly when the identity contains the substring
agent, and among the customers exactly when it does not. -/
theorem classification_by_substring :
    ∀ (ps : List String) (p : String),
      (p ∈ Classification.agentsOf ps ↔
        p ∈ ps ∧ Classification.isAgentIdentity p = true) ∧
      (p ∈ Classification.customersOf ps ↔
        p ∈ ps ∧ Classification.isAgentIdentity p = false) := by
  intro ps p
  constructor
  · simp [Classification.agentsOf, List.mem_filter]
  · simp [Classification.customersOf, List.mem_filter]

/-- C3: a cancellation request in HandingOff, Completed or Failed fails
with InvalidStateError and leaves the system state unchanged; cancellation
succeeds exactly from Requested or AwaitingAgentB; and in the UI the cancel
button is only offered in the requested stage. -/
theorem cancel_transfer_guard :
    (∀ s : Orchestrator.OrchState,
      (s.tstate = .HandingOff ∨ s.tstate = .Completed ∨ s.tstate = .Failed →
        Orchestrator.cancelTransfer s = .error .invalidState ∧
        Orchestrator.cancelResultState s = s) ∧
      (Orchestrator.cancelSucceeds s = true ↔
        (s.tstate = .Requested ∨ s.tstate = .AwaitingAgentB))) ∧
    (∀ st : UIStatus.Stage,
      UIStatus.cancelButtonVisible st = true ↔ st = .requested) := by
  constructor
  · rintro ⟨t, b, a⟩
    cases t <;>
      simp [Orchestrator.cancelTransfer, Orchestrator.cancelResultState,
        Orchestrator.cancelSucceeds]
  · intro st
    cases st <;> simp [UIStatus.cancelButtonVisible]

/-- Witness for the cancellation guard at the Completed state and the
connecting stage. -/
theorem cancel_transfer_guard_witness :
    Orchestrator.cancelTransfer ⟨.Completed, true, true⟩
      = .error .invalidState ∧
    Orchestrator.cancelResultState ⟨.Completed, true, true⟩
      = ⟨.Completed, true, true⟩ :=
  (cancel_transfer_guard.1 ⟨.Completed, true, true⟩).1
    (Or.inr (Or.inl rfl))

/-- C4 counterexample: with a valid userid and full environment but a
failing transport call, the room GET handler returns no response at all:
the failure is caught and logged, and no TransportError is surfaced to the
caller. -/
theorem create_room_failure_swallowed_cex :
    RoomRoute.GET ⟨some "wss-host", some "key", some "secret"⟩
      (some "u1") "room-1" false = RoomRoute.Resp.noResponse := by
  rfl

/-- C4: amended. When the transport call to create the room fails, the try
block of the room GET handler fails with the transport error before any
token is minted, so no room response and no partial state is produced, but
the handler performs no retry and its catch block swallows the error: the
route returns no response instead of surfacing a TransportError. -/
theorem create_room_failure_behavior :
    ∀ (env : RoomRoute.Env) (uid rn : String), uid ≠ "" →
      (falsy env.host = false →
        RoomRoute.GETtry env (some uid) rn false = .error .transport) ∧
      RoomRoute.GET env (some uid) rn false = RoomRoute.Resp.noResponse := by
  intro env uid rn h
  have hu : falsy (some uid) = false := by simp [falsy, h]
  constructor
  · intro hh
    simp [RoomRoute.GETtry, hu, hh]
  · rcases hhost : falsy env.host with _ | _ <;>
      simp [RoomRoute.GET, RoomRoute.GETtry, hu, hhost]

/-- Witness for the transport failure behavior at a concrete request. -/
theorem create_room_failure_behavior_witness :
    RoomRoute.GETtry ⟨some "h1", some "k1", some "s1"⟩
      (some "u2") "room-2" false = .error .transport ∧
    RoomRoute.GET ⟨some "h1", some "k1", some "s1"⟩
      (some "u2") "room-2" false = RoomRoute.Resp.noResponse :=
  ⟨(create_room_failure_behavior ⟨some "h1", some "k1", some "s1"⟩
      "u2" "room-2" (by decide)).1 (by decide),
   (create_room_failure_behavior ⟨some "h1", some "k1", some "s1"⟩
      "u2" "room-2" (by decide)).2⟩

/-- C6: a grant-issuance request made while the signing credentials are
unavailable does not mint a token: the token POST handler answers with the
500 credentials-not-configured error, the createaccesstoken helper fails
with a signing error, and the room GET handler never returns a token
body. -/
theorem grant_requires_signing_credentials :
    (∀ (env : TokenRoute.Env) (room ident : String),
      room ≠ "" → ident ≠ "" →
      (falsy env.apiKey = true ∨ falsy env.apiSecret = true) →
      TokenRoute.POST env (some room) (some ident)
        = .jsonError 500 "LiveKit credentials not configured") ∧
    (∀ (apiKey apiSecret : Option String) (uid : String) (g : VideoGrant),
      (falsy apiKey = true ∨ falsy apiSecret = true) →
      RoomRoute.createaccesstoken apiKey apiSecret uid g
        = .error .signing) ∧
    (∀ (env : RoomRoute.Env) (uid : Option String) (rn : String)
        (tOk : Bool),
      (falsy env.apiKey = true ∨ falsy env.apiSecret = true) →
      RoomRoute.GET env uid rn tOk = RoomRoute.Resp.noResponse) := by
  refine ⟨?_, ?_, ?_⟩
  · intro env room ident hr hi hcred
    have h1 : falsy (some room) = false := by simp [falsy, hr]
    have h2 : falsy (some ident) = false := by simp [falsy, hi]
    rcases hcred with h | h <;> simp [TokenRoute.POST, h1, h2, h]
  · intro apiKey apiSecret uid g hcred
    rcases hcred with h | h <;> simp [RoomRoute.createaccesstoken, h]
  · intro env uid rn tOk hcred
    unfold RoomRoute.GET RoomRoute.GETtry
    split_ifs <;>
      rcases hcred with h | h <;>
        simp [RoomRoute.createaccesstoken, h, Except.map]

/-- Witness for the missing-credentials behavior with an absent api
secret. -/
theorem grant_requires_signing_credentials_witness :
    TokenRoute.POST ⟨some "key", none, some "wss"⟩ (some "r-7") (some "ann")
      = .jsonError 500 "LiveKit credentials not configured" ∧
    RoomRoute.createaccesstoken (some "key") none "ann"
      (RoomRoute.grantFor "r-7") = .error .signing ∧
    RoomRoute.GET ⟨some "h", some "key", none⟩ (some "ann") "r-7" true
      = RoomRoute.Resp.noResponse :=
  ⟨grant_requires_signing_credentials.1 ⟨some "key", none, some "wss"⟩
      "r-7" "ann" (by decide) (by decide) (Or.inr (by decide)),
   grant_requires_signing_credentials.2.1 (some "key") none "ann"
      (RoomRoute.grantFor "r-7") (Or.inr (by decide)),
   grant_requires_signing_credentials.2.2 ⟨some "h", some "key", none⟩
      (some "ann") "r-7" true (Or.inr (by decide))⟩

/-- C7: every token minted by either handler carries the identity of the
request and exactly one grant naming exactly one room, so a single issuance
authorizes exactly one (identity, room) pair and is never spread over two
rooms. -/
theorem grant_single_identity_room_pair :
    (∀ (env : TokenRoute.Env) (room ident : String) (t : AccessToken),
      TokenRoute.POST env (some room) (some ident) = .ok t →
      t.identity = ident ∧ t.grants = [TokenRoute.grantFor room] ∧
      grantPairs t = [(ident, room)]) ∧
    (∀ (env : RoomRoute.Env) (uid rn rn2 : String) (tOk : Bool)
        (st : Nat) (tok : AccessToken),
      RoomRoute.GET env (some uid) rn tOk = .json st rn2 tok →
      st = 200 ∧ rn2 = rn ∧ tok.identity = uid ∧
      tok.grants = [RoomRoute.grantFor rn] ∧
      grantPairs tok = [(uid, rn)]) := by
  constructor
  · intro env room ident t h
    unfold TokenRoute.POST at h
    split_ifs at h
    cases h
    simp [grantPairs, TokenRoute.grantFor]
  · intro env uid rn rn2 tOk st tok h
    unfold RoomRoute.GET at h
    rcases hg : RoomRoute.GETtry env (some uid) rn tOk with e | ⟨rn3, tok3⟩ <;>
      rw [hg] at h
    · cases h
    · unfold RoomRoute.GETtry RoomRoute.createaccesstoken at hg
      split_ifs at hg
      cases h
      injection hg with hpair
      rw [Prod.mk.injEq] at hpair
      obtain ⟨h1, h2⟩ := hpair
      subst h1
      subst h2
      simp [grantPairs, RoomRoute.grantFor]

/-- Witness for the single pair property on concrete successful requests to
both handlers. -/
theorem grant_single_identity_room_pair_witness :
    (AccessToken.identity
        ⟨"bea", some "24h", [TokenRoute.grantFor "r-3"]⟩ = "bea" ∧
      AccessToken.grants ⟨"bea", some "24h", [TokenRoute.grantFor "r-3"]⟩
        = [TokenRoute.grantFor "r-3"] ∧
      grantPairs ⟨"bea", some "24h", [TokenRoute.grantFor "r-3"]⟩
        = [("bea", "r-3")]) ∧
    (200 = 200 ∧ "r-4" = "r-4" ∧
      AccessToken.identity ⟨"cal", none, [RoomRoute.grantFor "r-4"]⟩
        = "cal" ∧
      AccessToken.grants ⟨"cal", none, [RoomRoute.grantFor "r-4"]⟩
        = [RoomRoute.grantFor "r-4"] ∧
      grantPairs ⟨"cal", none, [RoomRoute.grantFor "r-4"]⟩
        = [("cal", "r-4")]) :=
  ⟨grant_single_identity_room_pair.1 ⟨some "k", some "s", some "w"⟩
      "r-3" "bea" ⟨"bea", some "24h", [TokenRoute.grantFor "r-3"]⟩ (by rfl),
   grant_single_identity_room_pair.2 ⟨some "h", some "k", some "s"⟩
      "cal" "r-4" "r-4" true 200
      ⟨"cal", none, [RoomRoute.grantFor "r-4"]⟩ (by rfl)⟩

/-- C9 counterexample: a room GET request with the userid absent yields no
response at all: the explicit throw is swallowed by the catch block, so no
grant is produced but no client error response is returned either. -/
theorem empty_userid_no_client_error_cex :
    RoomRoute.GET ⟨some "wss-host", some "key", some "secret"⟩
      none "room-9" true = RoomRoute.Resp.noResponse := by
  rfl

/-- C9: amended. The token POST handler rejects an empty or absent room or
identity with the 400 client error and mints nothing; the room GET handler
rejects an empty or absent userid by an internal throw that its catch block
swallows, so no grant is produced but the route returns no response rather
than a client error. -/
theorem empty_input_rejection :
    (∀ (env : TokenRoute.Env) (room ident : Option String),
      falsy room = true ∨ falsy ident = true →
      TokenRoute.POST env room ident
        = .jsonError 400 "Room and identity are required") ∧
    (∀ (env : RoomRoute.Env) (uid : Option String) (rn : String)
        (tOk : Bool),
      falsy uid = true →
      RoomRoute.GETtry env uid rn tOk = .error .noUserId ∧
      RoomRoute.GET env uid rn tOk = RoomRoute.Resp.noResponse) := by
  constructor
  · intro env room ident h
    rcases h with h | h <;> simp [TokenRoute.POST, h]
  · intro env uid rn tOk h
    constructor
    · simp [RoomRoute.GETtry, h]
    · simp [RoomRoute.GET, RoomRoute.GETtry, h]

/-- Witness for the empty-input behavior on concrete requests with an empty
identity and an absent userid. -/
theorem empty_input_rejection_witness :
    TokenRoute.POST ⟨some "k", some "s", some "w"⟩ (some "r-5") (some "")
      = .jsonError 400 "Room and identity are required" ∧
    RoomRoute.GETtry ⟨some "h", some "k", some "s"⟩ none "room-5" true
      = .error .noUserId ∧
    RoomRoute.GET ⟨some "h", some "k", some "s"⟩ none "room-5" true
      = RoomRoute.Resp.noResponse :=
  ⟨empty_input_rejection.1 ⟨some "k", some "s", some "w"⟩
      (some "r-5") (some "") (Or.inr (by decide)),
   (empty_input_rejection.2 ⟨some "h", some "k", some "s"⟩
      none "room-5" true (by decide)).1,
   (empty_input_rejection.2 ⟨some "h", some "k", some "s"⟩
      none "room-5" true (by decide)).2⟩

/-- C10: any two successful token requests for the same room carry exactly
the same grant list, hence the same permission flags, and the same fixed 24
hour ttl, independently of the requested identity. -/
theorem token_permissions_uniform :
    ∀ (env : TokenRoute.Env) (room i1 i2 : String) (t1 t2 : AccessToken),
      TokenRoute.POST env (some room) (some i1) = .ok t1 →
      TokenRoute.POST env (some room) (some i2) = .ok t2 →
      t1.grants = t2.grants ∧ t1.ttl = some "24h" ∧ t2.ttl = some "24h" ∧
      t1.grants = [TokenRoute.grantFor room] := by
  intro env room i1 i2 t1 t2 h1 h2
  unfold TokenRoute.POST at h1 h2
  split_ifs at h1 h2
  cases h1
  cases h2
  simp

/-- Witness for permission uniformity across two identities in the same
room. -/
theorem token_permissions_uniform_witness :
    AccessToken.grants ⟨"alice", some "24h", [TokenRoute.grantFor "r-6"]⟩
      = AccessToken.grants ⟨"bob", some "24h", [TokenRoute.grantFor "r-6"]⟩ ∧
    AccessToken.ttl ⟨"alice", some "24h", [TokenRoute.grantFor "r-6"]⟩
      = some "24h" ∧
    AccessToken.ttl ⟨"bob", some "24h", [TokenRoute.grantFor "r-6"]⟩
      = some "24h" ∧
    AccessToken.grants ⟨"alice", some "24h", [TokenRoute.grantFor "r-6"]⟩
      = [TokenRoute.grantFor "r-6"] :=
  token_permissions_uniform ⟨some "k", some "s", some "w"⟩ "r-6"
    "alice" "bob"
    ⟨"alice", some "24h", [TokenRoute.grantFor "r-6"]⟩
    ⟨"bob", some "24h", [TokenRoute.grantFor "r-6"]⟩ (by rfl) (by rfl)

end WarmTransfer
